import Mathlib

/-!
Verification of the brilirs command-line invocation configuration
(`src/brilirs/src/cli.rs`).  The source declares a clap-derived struct
`Cli` with boolean flags `-p`/`--profile`, `-c`/`--check`, `-t`/`--text`,
an option `-f`/`--file` taking exactly one following value, a trailing
positional list `args`, and the command-level setting
`allow_hyphen_values(true)`.  The argument scan itself is performed by the
clap library, whose code is not part of the given sources, so the scan is
modelled here from the specification's description of the `parse`
operation.
-/

/-- The invocation configuration, embedding the Rust struct `Cli`
(`src/brilirs/src/cli.rs`): fields `profile`, `file`, `check`, `text`,
`args`, with defaults `false`, `None`, `false`, `false`, `[]`. -/
structure Cli where
  profile : Bool
  file : Option String
  check : Bool
  text : Bool
  args : List String
deriving DecidableEq, Repr

/-- The two parse-failure kinds of the specification's error taxonomy: an
unrecognized option token, or an option missing its required value.  Each
carries the token that triggered the failure. -/
inductive ParseError where
  | unrecognizedOption (tok : String)
  | missingValue (tok : String)
deriving DecidableEq, Repr

instance {ε α : Type} [DecidableEq ε] [DecidableEq α] :
    DecidableEq (Except ε α) := fun a b =>
  match a, b with
  | .ok a, .ok b => decidable_of_iff (a = b) (by simp)
  | .error a, .error b => decidable_of_iff (a = b) (by simp)
  | .ok _, .error _ => isFalse (by simp)
  | .error _, .ok _ => isFalse (by simp)

/-- Does the token have the shape of an option: a hyphen followed by at
least one further character? -/
def isOptionShaped (t : String) : Bool :=
  match t.data with
  | '-' :: _ :: _ => true
  | _ => false

/-- Is the token a negative numeric literal: a hyphen followed by one or
more digits?  The specification singles these out as legitimate program
arguments that must pass through into `args`. -/
def isNegativeNumeral (t : String) : Bool :=
  match t.data with
  | '-' :: c :: cs => c.isDigit && cs.all Char.isDigit
  | _ => false

/-- Recognizer for the profile flag forms `-p` and `--profile`. -/
def isFlagProfile (t : String) : Bool :=
  decide (t = "-p" ∨ t = "--profile")

/-- Recognizer for the check flag forms `-c` and `--check`. -/
def isFlagCheck (t : String) : Bool :=
  decide (t = "-c" ∨ t = "--check")

/-- Recognizer for the text flag forms `-t` and `--text`. -/
def isFlagText (t : String) : Bool :=
  decide (t = "-t" ∨ t = "--text")

/-- Recognizer for the file option forms `-f` and `--file`. -/
def isFlagFile (t : String) : Bool :=
  decide (t = "-f" ∨ t = "--file")

/-- The end-of-options separator token. -/
def isSeparator (t : String) : Bool :=
  decide (t = "--")

/-- A token the scan classifies as an ordinary positional argument while
option parsing is still active: not the separator, not a recognized flag,
and not an unrecognized option-shaped token (negative numerals count as
positional). -/
def isPositionalTok (t : String) : Bool :=
  !isSeparator t && !isFlagProfile t && !isFlagCheck t && !isFlagText t &&
    !isFlagFile t && (!isOptionShaped t || isNegativeNumeral t)

/-- Modelled from the spec: the single-pass argument scan clap performs for
the `Cli` struct; the scan itself is library code absent from the given
sources.  The configuration accumulated so far is the scan state.  A `--`
token ends option parsing and forwards every remaining token to `args`; a
recognized flag sets its field; a file option consumes the next token as
its value and fails with a missing-value error when there is none; any
other option-shaped token that is not a negative numeric literal is an
unrecognized-option error; every remaining token is appended to `args` in
input order. -/
def parseAux (c : Cli) : List String → Except ParseError Cli
  | [] => .ok c
  | t :: rest =>
    if isSeparator t then .ok { c with args := c.args ++ rest }
    else if isFlagProfile t then parseAux { c with profile := true } rest
    else if isFlagCheck t then parseAux { c with check := true } rest
    else if isFlagText t then parseAux { c with text := true } rest
    else if isFlagFile t then
      match rest with
      | [] => .error (.missingValue t)
      | v :: rest2 => parseAux { c with file := some v } rest2
    else if isOptionShaped t && !isNegativeNumeral t then
      .error (.unrecognizedOption t)
    else parseAux { c with args := c.args ++ [t] } rest

/-- The default configuration the scan starts from: every flag false, no
file, no arguments (the clap defaults recorded in the data model). -/
def initConfig : Cli :=
  { profile := false, file := none, check := false, text := false, args := [] }

/-- Modelled from the spec: the operation
`parse(rawArgs) -> Result<InvocationConfig, ParseError>`, scanning the raw
argument vector from the default configuration. -/
def parse (toks : List String) : Except ParseError Cli :=
  parseAux initConfig toks

/-- The tokens the scan examines in option position: everything except
file-option values and the tokens behind the `--` separator. -/
def optTokens : List String → List String
  | [] => []
  | t :: rest =>
    if isSeparator t then []
    else if isFlagFile t then
      match rest with
      | [] => [t]
      | _ :: rest2 => t :: optTokens rest2
    else t :: optTokens rest

/-- The tokens that end up in `args`: positional tokens in option position
together with everything behind the `--` separator; recognized flags, file
values and the separator itself are excluded. -/
def positionals : List String → List String
  | [] => []
  | t :: rest =>
    if isSeparator t then rest
    else if isFlagProfile t || isFlagCheck t || isFlagText t then positionals rest
    else if isFlagFile t then
      match rest with
      | [] => []
      | _ :: rest2 => positionals rest2
    else if isOptionShaped t && !isNegativeNumeral t then positionals rest
    else t :: positionals rest

/-- Modelled from the spec: the canonical flag form of a configuration,
used by the idempotence property (no serializer appears in the given
sources).  Long flag forms, then the file option with its value, then the
`--` separator guarding the positional arguments. -/
def serialize (c : Cli) : List String :=
  (if c.profile then ["--profile"] else []) ++
    (match c.file with | some p => ["--file", p] | none => []) ++
    (if c.check then ["--check"] else []) ++
    (if c.text then ["--text"] else []) ++
    ("--" :: c.args)

theorem parseAux_cons (c : Cli) (t : String) (rest : List String) :
    parseAux c (t :: rest) =
      if isSeparator t then .ok { c with args := c.args ++ rest }
      else if isFlagProfile t then parseAux { c with profile := true } rest
      else if isFlagCheck t then parseAux { c with check := true } rest
      else if isFlagText t then parseAux { c with text := true } rest
      else if isFlagFile t then
        match rest with
        | [] => .error (.missingValue t)
        | v :: rest2 => parseAux { c with file := some v } rest2
      else if isOptionShaped t && !isNegativeNumeral t then
        .error (.unrecognizedOption t)
      else parseAux { c with args := c.args ++ [t] } rest := by
  cases rest <;> rfl

theorem optTokens_cons (t : String) (rest : List String) :
    optTokens (t :: rest) =
      if isSeparator t then []
      else if isFlagFile t then
        match rest with
        | [] => [t]
        | _ :: rest2 => t :: optTokens rest2
      else t :: optTokens rest := by
  cases rest <;> rfl

theorem positionals_cons (t : String) (rest : List String) :
    positionals (t :: rest) =
      if isSeparator t then rest
      else if isFlagProfile t || isFlagCheck t || isFlagText t then
        positionals rest
      else if isFlagFile t then
        match rest with
        | [] => []
        | _ :: rest2 => positionals rest2
      else if isOptionShaped t && !isNegativeNumeral t then positionals rest
      else t :: positionals rest := by
  cases rest <;> rfl

theorem isFlagProfile_eq {t : String} (h : isFlagProfile t = true) :
    t = "-p" ∨ t = "--profile" := by
  simpa [isFlagProfile] using h

theorem isFlagCheck_eq {t : String} (h : isFlagCheck t = true) :
    t = "-c" ∨ t = "--check" := by
  simpa [isFlagCheck] using h

theorem isFlagText_eq {t : String} (h : isFlagText t = true) :
    t = "-t" ∨ t = "--text" := by
  simpa [isFlagText] using h

theorem isFlagFile_eq {t : String} (h : isFlagFile t = true) :
    t = "-f" ∨ t = "--file" := by
  simpa [isFlagFile] using h

theorem isFlagProfile_disjoint {t : String} (h : isFlagProfile t = true) :
    isFlagCheck t = false ∧ isFlagText t = false ∧ isFlagFile t = false := by
  rcases isFlagProfile_eq h with rfl | rfl <;> decide

theorem isFlagCheck_disjoint {t : String} (h : isFlagCheck t = true) :
    isFlagProfile t = false ∧ isFlagText t = false ∧ isFlagFile t = false := by
  rcases isFlagCheck_eq h with rfl | rfl <;> decide

theorem isFlagText_disjoint {t : String} (h : isFlagText t = true) :
    isFlagProfile t = false ∧ isFlagCheck t = false ∧ isFlagFile t = false := by
  rcases isFlagText_eq h with rfl | rfl <;> decide

theorem parseAux_sep (c : Cli) (rest : List String) :
    parseAux c ("--" :: rest) = .ok { c with args := c.args ++ rest } := by
  rw [parseAux_cons]
  simp [isSeparator]

theorem parseAux_positionals_run (pre : List String) :
    ∀ (c : Cli) (rest : List String), (∀ t ∈ pre, isPositionalTok t = true) →
      parseAux c (pre ++ rest) = parseAux { c with args := c.args ++ pre } rest := by
  induction pre with
  | nil =>
    intro c rest _
    simp only [List.nil_append, List.append_nil]
  | cons t pre ih =>
    intro c rest hpre
    have ht := hpre t (List.mem_cons_self t pre)
    simp only [isPositionalTok, Bool.and_eq_true, Bool.not_eq_true',
      Bool.or_eq_true] at ht
    obtain ⟨⟨⟨⟨⟨h1, h2⟩, h3⟩, h4⟩, h5⟩, h6⟩ := ht
    rcases h6 with h6 | h6 <;>
      simp only [List.cons_append] <;>
      rw [parseAux_cons] <;>
      simp [h1, h2, h3, h4, h5, h6] <;>
      rw [ih _ rest fun x hx => hpre x (List.mem_cons_of_mem t hx)] <;>
      simp

theorem parseAux_ok_fields (c : Cli) (toks : List String) :
    ∀ cfg : Cli, parseAux c toks = .ok cfg →
      cfg.profile = (c.profile || (optTokens toks).any isFlagProfile) ∧
      cfg.check = (c.check || (optTokens toks).any isFlagCheck) ∧
      cfg.text = (c.text || (optTokens toks).any isFlagText) ∧
      cfg.file.isSome = (c.file.isSome || (optTokens toks).any isFlagFile) ∧
      cfg.args = c.args ++ positionals toks := by
  induction c, toks using parseAux.induct with
  | case1 c =>
    intro cfg h
    simp only [parseAux, Except.ok.injEq] at h
    subst h
    simp [optTokens, positionals]
  | case2 c v rest hsep =>
    intro cfg h
    rw [parseAux_cons] at h
    simp only [hsep, if_true, Except.ok.injEq] at h
    subst h
    simp [optTokens_cons, positionals_cons, hsep]
  | case3 c v rest hsep hprof ih =>
    intro cfg h
    rw [parseAux_cons] at h
    simp only [hsep, hprof, if_true, if_false, ite_false, ite_true] at h
    obtain ⟨hcF, htF, hfF⟩ := isFlagProfile_disjoint hprof
    obtain ⟨h1, h2, h3, h4, h5⟩ := ih cfg h
    refine ⟨?_, ?_, ?_, ?_, ?_⟩ <;>
      simp [optTokens_cons, positionals_cons, hsep, hprof, hcF, htF, hfF,
        h1, h2, h3, h4, h5]
  | case4 c v rest hsep hprof hcheck ih =>
    intro cfg h
    rw [parseAux_cons] at h
    simp only [hcheck, if_true, if_neg hsep, if_neg hprof] at h
    obtain ⟨hpF, htF, hfF⟩ := isFlagCheck_disjoint hcheck
    obtain ⟨h1, h2, h3, h4, h5⟩ := ih cfg h
    refine ⟨?_, ?_, ?_, ?_, ?_⟩ <;>
      simp [optTokens_cons, positionals_cons, hsep, hcheck, hpF, htF, hfF,
        h1, h2, h3, h4, h5]
  | case5 c v rest hsep hprof hcheck htext ih =>
    intro cfg h
    rw [parseAux_cons] at h
    simp only [htext, if_true, if_neg hsep, if_neg hprof, if_neg hcheck] at h
    obtain ⟨hpF, hcF, hfF⟩ := isFlagText_disjoint htext
    obtain ⟨h1, h2, h3, h4, h5⟩ := ih cfg h
    refine ⟨?_, ?_, ?_, ?_, ?_⟩ <;>
      simp [optTokens_cons, positionals_cons, hsep, htext, hpF, hcF, hfF,
        h1, h2, h3, h4, h5]
  | case6 c v hsep hprof hcheck htext hfile =>
    intro cfg h
    rw [parseAux_cons] at h
    simp [hsep, hprof, hcheck, htext, hfile] at h
  | case7 c v hsep hprof hcheck htext hfile v1 rest2 ih =>
    intro cfg h
    rw [parseAux_cons] at h
    simp only [hfile, if_true, if_neg hsep, if_neg hprof, if_neg hcheck,
      if_neg htext] at h
    simp only [Bool.not_eq_true] at hprof hcheck htext
    obtain ⟨h1, h2, h3, h4, h5⟩ := ih cfg h
    refine ⟨?_, ?_, ?_, ?_, ?_⟩ <;>
      simp [optTokens_cons, positionals_cons, hsep, hfile, hprof, hcheck,
        htext, h1, h2, h3, h4, h5]
  | case8 c v rest hsep hprof hcheck htext hfile hopt =>
    intro cfg h
    rw [parseAux_cons] at h
    simp [hsep, hprof, hcheck, htext, hfile, hopt] at h
  | case9 c v rest hsep hprof hcheck htext hfile hopt ih =>
    intro cfg h
    rw [parseAux_cons] at h
    simp only [if_neg hsep, if_neg hprof, if_neg hcheck, if_neg htext,
      if_neg hfile, if_neg hopt] at h
    simp only [Bool.not_eq_true] at hprof hcheck htext hfile
    obtain ⟨h1, h2, h3, h4, h5⟩ := ih cfg h
    refine ⟨?_, ?_, ?_, ?_, ?_⟩ <;>
      simp [optTokens_cons, positionals_cons, hsep, hprof, hcheck, htext,
        hfile, hopt, h1, h2, h3, h4, h5]

theorem parseAux_error_token (c : Cli) (toks : List String) :
    ∀ e : ParseError, parseAux c toks = .error e →
      ∃ t, t ∈ toks ∧
        ((e = .unrecognizedOption t ∧ isOptionShaped t = true ∧
            isNegativeNumeral t = false ∧ isFlagProfile t = false ∧
            isFlagCheck t = false ∧ isFlagText t = false ∧
            isFlagFile t = false ∧ isSeparator t = false) ∨
          (e = .missingValue t ∧ isFlagFile t = true)) := by
  induction c, toks using parseAux.induct with
  | case1 c =>
    intro e h
    simp [parseAux] at h
  | case2 c v rest hsep =>
    intro e h
    rw [parseAux_cons] at h
    simp [hsep] at h
  | case3 c v rest hsep hprof ih =>
    intro e h
    rw [parseAux_cons] at h
    simp only [hsep, hprof, if_true, if_false, ite_false, ite_true] at h
    obtain ⟨t, htmem, hres⟩ := ih e h
    exact ⟨t, List.mem_cons_of_mem v htmem, hres⟩
  | case4 c v rest hsep hprof hcheck ih =>
    intro e h
    rw [parseAux_cons] at h
    simp only [hcheck, if_true, if_neg hsep, if_neg hprof] at h
    obtain ⟨t, htmem, hres⟩ := ih e h
    exact ⟨t, List.mem_cons_of_mem v htmem, hres⟩
  | case5 c v rest hsep hprof hcheck htext ih =>
    intro e h
    rw [parseAux_cons] at h
    simp only [htext, if_true, if_neg hsep, if_neg hprof, if_neg hcheck] at h
    obtain ⟨t, htmem, hres⟩ := ih e h
    exact ⟨t, List.mem_cons_of_mem v htmem, hres⟩
  | case6 c v hsep hprof hcheck htext hfile =>
    intro e h
    rw [parseAux_cons] at h
    simp only [hfile, if_true, if_neg hsep, if_neg hprof, if_neg hcheck,
      if_neg htext, Except.error.injEq] at h
    subst h
    exact ⟨v, List.mem_cons_self v [], Or.inr ⟨rfl, hfile⟩⟩
  | case7 c v hsep hprof hcheck htext hfile v1 rest2 ih =>
    intro e h
    rw [parseAux_cons] at h
    simp only [hfile, if_true, if_neg hsep, if_neg hprof, if_neg hcheck,
      if_neg htext] at h
    obtain ⟨t, htmem, hres⟩ := ih e h
    exact ⟨t, List.mem_cons_of_mem v (List.mem_cons_of_mem v1 htmem), hres⟩
  | case8 c v rest hsep hprof hcheck htext hfile hopt =>
    intro e h
    rw [parseAux_cons] at h
    simp only [hopt, if_true, if_neg hsep, if_neg hprof, if_neg hcheck,
      if_neg htext, if_neg hfile, Except.error.injEq] at h
    subst h
    simp only [Bool.and_eq_true, Bool.not_eq_true'] at hopt
    simp only [Bool.not_eq_true] at hsep hprof hcheck htext hfile
    exact ⟨v, List.mem_cons_self v rest,
      Or.inl ⟨rfl, hopt.1, hopt.2, hprof, hcheck, htext, hfile, hsep⟩⟩
  | case9 c v rest hsep hprof hcheck htext hfile hopt ih =>
    intro e h
    rw [parseAux_cons] at h
    simp only [if_neg hsep, if_neg hprof, if_neg hcheck, if_neg htext,
      if_neg hfile, if_neg hopt] at h
    obtain ⟨t, htmem, hres⟩ := ih e h
    exact ⟨t, List.mem_cons_of_mem v htmem, hres⟩

theorem parse_serialize (c : Cli) : parse (serialize c) = .ok c := by
  obtain ⟨p, f, ch, tx, a⟩ := c
  cases p <;> rcases f with _ | f <;> cases ch <;> cases tx <;>
    simp [serialize, parse, initConfig, parseAux_cons, parseAux_sep,
      isSeparator, isFlagProfile, isFlagCheck, isFlagText, isFlagFile,
      isOptionShaped, isNegativeNumeral]

theorem isFlagFile_disjoint {t : String} (h : isFlagFile t = true) :
    isFlagProfile t = false ∧ isFlagCheck t = false ∧ isFlagText t = false ∧
      isSeparator t = false := by
  rcases isFlagFile_eq h with rfl | rfl <;> decide

/-- C1 (amended): for every raw argument list accepted by parse, `profile`,
`check` and `text` are true exactly when a corresponding flag token occurs
among the tokens examined in option position (so not consumed as a file
value and not behind the `--` separator), `file` is set exactly when a file
option occurs in option position (its value the token following the last
such option), and `args` is exactly the sequence of positional tokens in
their original input order; parsing the empty argument list yields
profile=false, check=false, text=false, file=None, args=[]. -/
theorem claim1_parse_field_characterization (input : List String) (cfg : Cli)
    (h : parse input = .ok cfg) :
    cfg.profile = (optTokens input).any isFlagProfile ∧
    cfg.check = (optTokens input).any isFlagCheck ∧
    cfg.text = (optTokens input).any isFlagText ∧
    cfg.file.isSome = (optTokens input).any isFlagFile ∧
    cfg.args = positionals input ∧
    parse [] = .ok { profile := false, file := none, check := false,
                     text := false, args := [] } := by
  obtain ⟨h1, h2, h3, h4, h5⟩ := parseAux_ok_fields initConfig input cfg h
  exact ⟨by simpa [initConfig] using h1, by simpa [initConfig] using h2,
    by simpa [initConfig] using h3, by simpa [initConfig] using h4,
    by simpa [initConfig] using h5, rfl⟩

/-- C1 counterexample: the input `-f -p` is accepted with `profile = false`
even though the token `-p` occurred in it (it was consumed as the file
value), refuting the unrestricted reading of the claim's iff. -/
theorem claim1_counterexample :
    parse ["-f", "-p"] =
      .ok { profile := false, file := some "-p", check := false,
            text := false, args := [] } ∧
    "-p" ∈ ["-f", "-p"] := by decide

/-- C1 witness: the characterization evaluated at the input `-p foo`. -/
theorem claim1_witness :
    (Cli.mk true none false false ["foo"]).profile =
      (optTokens ["-p", "foo"]).any isFlagProfile ∧
    (Cli.mk true none false false ["foo"]).check =
      (optTokens ["-p", "foo"]).any isFlagCheck ∧
    (Cli.mk true none false false ["foo"]).text =
      (optTokens ["-p", "foo"]).any isFlagText ∧
    (Cli.mk true none false false ["foo"]).file.isSome =
      (optTokens ["-p", "foo"]).any isFlagFile ∧
    (Cli.mk true none false false ["foo"]).args = positionals ["-p", "foo"] ∧
    parse [] = .ok { profile := false, file := none, check := false,
                     text := false, args := [] } :=
  claim1_parse_field_characterization ["-p", "foo"]
    (Cli.mk true none false false ["foo"]) (by decide)

/-- C2 (amended): for every input argument list in which every token is
classified as positional (not a recognized flag, not the `--` separator and
not an unrecognized option-shaped non-numeric token), parse succeeds and
the resulting args field equals the input sequence verbatim, in the same
order. -/
theorem claim2_positional_inputs_verbatim (input : List String)
    (h : ∀ t ∈ input, isPositionalTok t = true) :
    parse input =
      .ok { profile := false, file := none, check := false, text := false,
            args := input } := by
  have h2 := parseAux_positionals_run input initConfig [] h
  rw [List.append_nil] at h2
  show parseAux initConfig input = _
  rw [h2]
  rfl

/-- C2 counterexample: the input `--bogus` contains no token of the
recognized flag set, yet parse fails instead of returning it in `args`. -/
theorem claim2_counterexample :
    parse ["--bogus"] = .error (.unrecognizedOption "--bogus") ∧
    isFlagProfile "--bogus" = false ∧ isFlagCheck "--bogus" = false ∧
    isFlagText "--bogus" = false ∧ isFlagFile "--bogus" = false := by decide

/-- C2 witness: the amended claim evaluated on `foo -5 bar`, whose tokens
are all positional. -/
theorem claim2_witness :
    parse ["foo", "-5", "bar"] =
      .ok { profile := false, file := none, check := false, text := false,
            args := ["foo", "-5", "bar"] } :=
  claim2_positional_inputs_verbatim ["foo", "-5", "bar"] (by decide)

/-- C3 (amended): an option-shaped token that is not a recognized flag, not
the separator and not a negative numeric literal causes an
unrecognized-option error whenever it is reached in option position (here:
after any run of positional tokens); in particular parsing `--bogus`
fails.  The unrestricted claim is refuted by `claim3_counterexample`, where
the unrecognized-shaped token is consumed as a file value. -/
theorem claim3_unrecognized_option_error (pre : List String) (t : String)
    (rest : List String) (hpre : ∀ x ∈ pre, isPositionalTok x = true)
    (hshape : isOptionShaped t = true) (hnum : isNegativeNumeral t = false)
    (hsep : isSeparator t = false) (hp : isFlagProfile t = false)
    (hc : isFlagCheck t = false) (hx : isFlagText t = false)
    (hf : isFlagFile t = false) :
    parse (pre ++ t :: rest) = .error (.unrecognizedOption t) := by
  have h2 := parseAux_positionals_run pre initConfig (t :: rest) hpre
  show parseAux initConfig (pre ++ t :: rest) = _
  rw [h2, parseAux_cons]
  simp [hshape, hnum, hsep, hp, hc, hx, hf]

/-- C3 counterexample: the input `-f --bogus` contains the option-shaped
unrecognized token `--bogus`, yet parse succeeds (the token is consumed as
the file value), refuting the claim as universally stated. -/
theorem claim3_counterexample :
    parse ["-f", "--bogus"] =
      .ok { profile := false, file := some "--bogus", check := false,
            text := false, args := [] } ∧
    isOptionShaped "--bogus" = true ∧
    isFlagProfile "--bogus" = false ∧ isFlagCheck "--bogus" = false ∧
    isFlagText "--bogus" = false ∧ isFlagFile "--bogus" = false := by decide

/-- C3 witness: the amended claim evaluated on the single token
`--bogus`. -/
theorem claim3_witness :
    parse ["--bogus"] = .error (.unrecognizedOption "--bogus") := by
  simpa using claim3_unrecognized_option_error [] "--bogus" [] (by decide)
    (by decide) (by decide) (by decide) (by decide) (by decide) (by decide)
    (by decide)

/-- C4 (amended): a file option (`-f` or `--file`) that is the final token
and is reached in option position (here: after any run of positional
tokens) makes parse fail with a missing-value error; in particular parsing
`-f` alone fails.  The unrestricted claim is refuted by
`claim4_counterexample`, where the trailing `-f` sits behind the `--`
separator. -/
theorem claim4_missing_value_error (pre : List String) (f : String)
    (hpre : ∀ x ∈ pre, isPositionalTok x = true)
    (hf : isFlagFile f = true) :
    parse (pre ++ [f]) = .error (.missingValue f) := by
  obtain ⟨hp, hc, hx, hs⟩ := isFlagFile_disjoint hf
  have h2 := parseAux_positionals_run pre initConfig [f] hpre
  show parseAux initConfig (pre ++ [f]) = _
  rw [h2, parseAux_cons]
  simp [hf, hp, hc, hx, hs]

/-- C4 counterexample: in the input `-- -f` the file option is the final
token, yet parse succeeds and places `-f` into args, because the token
sits behind the end-of-options separator. -/
theorem claim4_counterexample :
    parse ["--", "-f"] =
      .ok { profile := false, file := none, check := false, text := false,
            args := ["-f"] } := by decide

/-- C4 witness: the amended claim evaluated on the single token `-f`. -/
theorem claim4_witness :
    parse ["-f"] = .error (.missingValue "-f") := by
  simpa using claim4_missing_value_error [] "-f" (by decide) (by decide)

/-- C5: hyphen-prefixed tokens in positional position are accepted
verbatim into `args`, in order, and never cause an unrecognized-option
error: for any run of positional tokens (negative numerals included)
followed by `--` and arbitrary further tokens, parse succeeds with `args`
the concatenation of both runs; in particular `prog -- -5 -3` yields args
`[prog, -5, -3]`. -/
theorem claim5_hyphen_positionals_pass (pre post : List String)
    (hpre : ∀ x ∈ pre, isPositionalTok x = true) :
    parse (pre ++ "--" :: post) =
      .ok { profile := false, file := none, check := false, text := false,
            args := pre ++ post } := by
  have h2 := parseAux_positionals_run pre initConfig ("--" :: post) hpre
  show parseAux initConfig (pre ++ "--" :: post) = _
  rw [h2, parseAux_sep]
  simp [initConfig]

/-- C5 witness: the claim's own example `prog -- -5 -3`. -/
theorem claim5_witness :
    parse ["prog", "--", "-5", "-3"] =
      .ok { profile := false, file := none, check := false, text := false,
            args := ["prog", "-5", "-3"] } := by
  simpa using claim5_hyphen_positionals_pass ["prog"] ["-5", "-3"] (by decide)

/-- C6: whenever parse fails, the error is one of exactly the two kinds of
`ParseError` — unrecognized option or missing option value — and it names a
token of the input that triggered it: an option-shaped, non-numeric,
unrecognized token for the first kind, a file-option token for the second.
No configuration is returned alongside the error, `parse` being
`Except`-valued. -/
theorem claim6_error_taxonomy (input : List String) (e : ParseError)
    (h : parse input = .error e) :
    ∃ t, t ∈ input ∧
      ((e = .unrecognizedOption t ∧ isOptionShaped t = true ∧
          isNegativeNumeral t = false ∧ isFlagProfile t = false ∧
          isFlagCheck t = false ∧ isFlagText t = false ∧
          isFlagFile t = false ∧ isSeparator t = false) ∨
        (e = .missingValue t ∧ isFlagFile t = true)) :=
  parseAux_error_token initConfig input e h

/-- C6 witness: the taxonomy evaluated at the failing input `--bogus`. -/
theorem claim6_witness :
    ∃ t, t ∈ ["--bogus"] ∧
      ((ParseError.unrecognizedOption "--bogus" = .unrecognizedOption t ∧
          isOptionShaped t = true ∧ isNegativeNumeral t = false ∧
          isFlagProfile t = false ∧ isFlagCheck t = false ∧
          isFlagText t = false ∧ isFlagFile t = false ∧
          isSeparator t = false) ∨
        (ParseError.unrecognizedOption "--bogus" = .missingValue t ∧
          isFlagFile t = true)) :=
  claim6_error_taxonomy ["--bogus"] (.unrecognizedOption "--bogus")
    (by decide)

/-- C7: re-serializing any successfully parsed configuration back to its
canonical flag form and parsing again yields a configuration equal to the
original. -/
theorem claim7_reparse_roundtrip (input : List String) (cfg : Cli)
    (_h : parse input = .ok cfg) : parse (serialize cfg) = .ok cfg :=
  parse_serialize cfg

/-- C7 witness: the round trip evaluated at the parse of
`--file in.bril -c`. -/
theorem claim7_witness :
    parse (serialize (Cli.mk false (some "in.bril") true false [])) =
      .ok (Cli.mk false (some "in.bril") true false []) :=
  claim7_reparse_roundtrip ["--file", "in.bril", "-c"]
    (Cli.mk false (some "in.bril") true false []) (by decide)

/-- C8: parse is deterministic — any two invocations on equal input token
sequences produce equal results; purity (no file, environment or stdin
access) holds by construction of the embedding, `parse` being a plain
function of the token list. -/
theorem claim8_deterministic (xs ys : List String) (h : xs = ys) :
    parse xs = parse ys := by
  rw [h]

/-- C8 witness: determinism evaluated at the input `-p foo`. -/
theorem claim8_witness : parse ["-p", "foo"] = parse ["-p", "foo"] :=
  claim8_deterministic ["-p", "foo"] ["-p", "foo"] rfl

/-- C9: a hyphen-prefixed token immediately following a file option is
consumed as the file value rather than triggering a missing-value or
unrecognized-option error; in particular `-f -x` succeeds with
file = some `-x`. -/
theorem claim9_file_consumes_hyphen_value (f v : String)
    (hf : isFlagFile f = true) (_hv : isOptionShaped v = true) :
    parse [f, v] =
      .ok { profile := false, file := some v, check := false, text := false,
            args := [] } := by
  obtain ⟨hp, hc, hx, hs⟩ := isFlagFile_disjoint hf
  show parseAux initConfig [f, v] = _
  rw [parseAux_cons]
  simp [hf, hp, hc, hx, hs, parseAux, initConfig]

/-- C9 witness: the claim's example `-f -x`. -/
theorem claim9_witness :
    parse ["-f", "-x"] =
      .ok { profile := false, file := some "-x", check := false,
            text := false, args := [] } :=
  claim9_file_consumes_hyphen_value "-f" "-x" (by decide) (by decide)

/-- C10: the standalone `--` token ends option parsing: it is not placed
into args, and every token after it — flag-like tokens included — is
appended verbatim to args in order, with no flag fields set and no error
raised. -/
theorem claim10_sep_forwards_rest (post : List String) :
    parse ("--" :: post) =
      .ok { profile := false, file := none, check := false, text := false,
            args := post } := by
  show parseAux initConfig ("--" :: post) = _
  rw [parseAux_sep]
  rfl
